import Mathlib

/-!
Verification of the Guide and Homestay data models
(`src/models/guides/Guide.model.ts`, `src/models/homestays/Homestay.model.ts`).

The source declares two Mongoose schemas: per-field validation rules
(`required`, `min`, `maxlength`, `trim`, custom non-empty-array validators,
`enum`), default values, automatic `createdAt`/`updatedAt` timestamps
(`timestamps: true`), and secondary index declarations.  The shallow
embedding below translates those declarations into executable Lean
definitions: record types for the stored entities, input types in which a
field that may be absent from a creation or partial-update payload is an
`Option`, and validation functions returning `Except ValidationError`
that apply the declared rules in schema declaration order, exactly as the
ODM interprets them (a `default` fires only when the field is absent;
`required` on a string also rejects the empty string; arrays default to
the empty array, so the custom non-empty validators are what reject an
absent or empty collection).
-/

/-- Error kinds reported by schema validation. -/
inductive ValidationError
  | missingRequiredField (fieldName : String)
  | invalidEnumValue (fieldName : String)
  | outOfRangeValue (fieldName : String)
  | emptyRequiredCollection (fieldName : String)
  deriving DecidableEq, Repr

/-- `availability` enum of the Guide schema: `'available' | 'busy' | 'unavailable'`. -/
inductive GuideAvailability
  | available
  | busy
  | unavailable
  deriving DecidableEq, Repr

/-- Stored Guide pricing subdocument (`pricingSchema` in Guide.model.ts):
`halfDay` and `fullDay` are required with `min: 0`; `multiDay` and
`workshop` are optional and carry no range constraint. -/
structure GuidePricing where
  halfDay : Int
  fullDay : Int
  multiDay : Option Int
  workshop : Option Int
  deriving DecidableEq, Repr

/-- Stored Guide location subdocument (`locationSchema` in Guide.model.ts). -/
structure GuideLocation where
  district : String
  state : String
  deriving DecidableEq, Repr

/-- Stored Guide record (`IGuide` plus the `timestamps: true` fields). -/
structure Guide where
  name : String
  bio : String
  specializations : List String
  languages : List String
  experience : String
  location : GuideLocation
  pricing : GuidePricing
  certifications : Option (List String)
  availability : GuideAvailability
  createdAt : Nat
  updatedAt : Nat
  deriving DecidableEq, Repr

/-- Raw location payload: each subfield may be absent. -/
structure GuideLocationInput where
  district : Option String := none
  state : Option String := none
  deriving DecidableEq, Repr

/-- Raw pricing payload: each subfield may be absent. -/
structure GuidePricingInput where
  halfDay : Option Int := none
  fullDay : Option Int := none
  multiDay : Option Int := none
  workshop : Option Int := none
  deriving DecidableEq, Repr

/-- Creation payload (`CreateGuideInput = Omit<IGuide, timestamps>`); the
enum field arrives as a raw string, arrays default to `[]` as in the ODM. -/
structure CreateGuideInput where
  name : Option String := none
  bio : Option String := none
  specializations : List String := []
  languages : List String := []
  experience : Option String := none
  location : Option GuideLocationInput := none
  pricing : Option GuidePricingInput := none
  certifications : Option (List String) := none
  availability : Option String := none
  deriving DecidableEq, Repr

/-- Partial-update payload (`UpdateGuideInput = Partial<...>`): every field
optional; a supplied field is re-validated, an absent one left unchanged. -/
structure UpdateGuideInput where
  name : Option String := none
  bio : Option String := none
  specializations : Option (List String) := none
  languages : Option (List String) := none
  experience : Option String := none
  location : Option GuideLocationInput := none
  pricing : Option GuidePricingInput := none
  certifications : Option (List String) := none
  availability : Option String := none
  deriving DecidableEq, Repr

/-- Strip leading and trailing whitespace from a character list. -/
def trimChars (l : List Char) : List Char :=
  ((l.dropWhile Char.isWhitespace).reverse.dropWhile Char.isWhitespace).reverse

/-- The `trim: true` schema option: strip surrounding whitespace. -/
def trimString (s : String) : String :=
  ⟨trimChars s.data⟩

/-- `required: true` on a string path with `trim: true` and an optional
`maxlength`: absent or (after trimming) empty values fail `required`;
a trimmed value longer than `maxLen` fails the length bound. -/
def requiredTrimmedString (fieldName : String) (maxLen : Option Nat) (v : Option String) :
    Except ValidationError String :=
  match v with
  | none => .error (.missingRequiredField fieldName)
  | some s =>
    let t := trimString s
    if t = "" then .error (.missingRequiredField fieldName)
    else
      match maxLen with
      | none => .ok t
      | some m => if t.length ≤ m then .ok t else .error (.outOfRangeValue fieldName)

/-- `required: true` on a plain string path (no trim, no maxlength). -/
def requiredString (fieldName : String) (v : Option String) :
    Except ValidationError String :=
  match v with
  | none => .error (.missingRequiredField fieldName)
  | some s => if s = "" then .error (.missingRequiredField fieldName) else .ok s

/-- `required: true, default: d` on a string path: the default fires only
when the field is absent; a supplied empty string still fails `required`. -/
def defaultedString (defaultVal : String) (fieldName : String) (v : Option String) :
    Except ValidationError String :=
  match v with
  | none => .ok defaultVal
  | some s => if s = "" then .error (.missingRequiredField fieldName) else .ok s

/-- `required: true, min: lo` on a number path. -/
def requiredNumberMin (fieldName : String) (lo : Int) (v : Option Int) :
    Except ValidationError Int :=
  match v with
  | none => .error (.missingRequiredField fieldName)
  | some n => if n < lo then .error (.outOfRangeValue fieldName) else .ok n

/-- `required: true` on a number path with no range constraint. -/
def requiredNumber (fieldName : String) (v : Option Int) :
    Except ValidationError Int :=
  match v with
  | none => .error (.missingRequiredField fieldName)
  | some n => .ok n

/-- The custom array validator `(v) => v.length > 0` of the Guide schema. -/
def nonEmptyStringList (fieldName : String) (v : List String) :
    Except ValidationError (List String) :=
  if v.isEmpty then .error (.emptyRequiredCollection fieldName) else .ok v

/-- Partial-update semantics of one schema path: a field absent from the
update payload keeps the stored value, a supplied one is re-validated by
the path's declared rule. -/
def updateWith {β α : Type} (old : α) (f : β → Except ValidationError α) (v : Option β) :
    Except ValidationError α :=
  match v with
  | none => .ok old
  | some x => f x

/-- Parse a supplied `availability` string against the declared enum. -/
def parseGuideAvailabilityValue (s : String) : Except ValidationError GuideAvailability :=
  if s = "available" then .ok .available
  else if s = "busy" then .ok .busy
  else if s = "unavailable" then .ok .unavailable
  else .error (.invalidEnumValue "availability")

/-- `availability` on create: `default: 'available'` when absent. -/
def parseGuideAvailability (v : Option String) : Except ValidationError GuideAvailability :=
  match v with
  | none => .ok .available
  | some s => parseGuideAvailabilityValue s

/-- Validate the Guide `location` subdocument (`required: true`;
`state` defaults to `'Jharkhand'`). -/
def validateGuideLocation (v : Option GuideLocationInput) :
    Except ValidationError GuideLocation := do
  match v with
  | none => .error (.missingRequiredField "location")
  | some l =>
    let district ← requiredString "location.district" l.district
    let state ← defaultedString "Jharkhand" "location.state" l.state
    return { district := district, state := state }

/-- Validate the Guide `pricing` subdocument: `halfDay`/`fullDay` required
with `min: 0`; `multiDay`/`workshop` optional, no constraint. -/
def validateGuidePricing (v : Option GuidePricingInput) :
    Except ValidationError GuidePricing := do
  match v with
  | none => .error (.missingRequiredField "pricing")
  | some p =>
    let halfDay ← requiredNumberMin "pricing.halfDay" 0 p.halfDay
    let fullDay ← requiredNumberMin "pricing.fullDay" 0 p.fullDay
    return { halfDay := halfDay, fullDay := fullDay,
             multiDay := p.multiDay, workshop := p.workshop }

/-- Create a Guide: validate every path of `guideSchema` in declaration
order; on success both timestamps are set to the current time `now`. -/
def createGuide (i : CreateGuideInput) (now : Nat) : Except ValidationError Guide := do
  let name ← requiredTrimmedString "name" (some 100) i.name
  let bio ← requiredTrimmedString "bio" none i.bio
  let specializations ← nonEmptyStringList "specializations" i.specializations
  let languages ← nonEmptyStringList "languages" i.languages
  let experience ← requiredString "experience" i.experience
  let location ← validateGuideLocation i.location
  let pricing ← validateGuidePricing i.pricing
  let availability ← parseGuideAvailability i.availability
  return { name := name, bio := bio, specializations := specializations,
           languages := languages, experience := experience,
           location := location, pricing := pricing,
           certifications := i.certifications, availability := availability,
           createdAt := now, updatedAt := now }

/-- Apply a partial update to a stored Guide: each supplied field is
validated by the same schema rule and replaces the old value, absent
fields are unchanged, `createdAt` is kept and `updatedAt` refreshed. -/
def applyGuideUpdate (g : Guide) (u : UpdateGuideInput) (now : Nat) :
    Except ValidationError Guide := do
  let name ← updateWith g.name
    (fun s => requiredTrimmedString "name" (some 100) (some s)) u.name
  let bio ← updateWith g.bio
    (fun s => requiredTrimmedString "bio" none (some s)) u.bio
  let specializations ← updateWith g.specializations
    (nonEmptyStringList "specializations") u.specializations
  let languages ← updateWith g.languages
    (nonEmptyStringList "languages") u.languages
  let experience ← updateWith g.experience
    (fun s => requiredString "experience" (some s)) u.experience
  let location ← updateWith g.location
    (fun l => validateGuideLocation (some l)) u.location
  let pricing ← updateWith g.pricing
    (fun p => validateGuidePricing (some p)) u.pricing
  let certifications := match u.certifications with
    | none => g.certifications
    | some l => some l
  let availability ← updateWith g.availability
    parseGuideAvailabilityValue u.availability
  return { name := name, bio := bio, specializations := specializations,
           languages := languages, experience := experience,
           location := location, pricing := pricing,
           certifications := certifications, availability := availability,
           createdAt := g.createdAt, updatedAt := now }

/-- `propertyType` enum of the Homestay schema: `'entire' | 'private' | 'shared'`. -/
inductive PropertyType
  | entire
  | «private»
  | shared
  deriving DecidableEq, Repr

/-- `status` enum of the Homestay schema: `'active' | 'inactive' | 'pending'`. -/
inductive HomestayStatus
  | active
  | inactive
  | pending
  deriving DecidableEq, Repr

/-- Stored Homestay pricing subdocument (`pricingSchema` in
Homestay.model.ts): `basePrice` required with `min: 100`; `cleaningFee`
and `weekendPrice` optional with no range constraint. -/
structure HomestayPricing where
  basePrice : Int
  cleaningFee : Option Int
  weekendPrice : Option Int
  deriving DecidableEq, Repr

/-- Stored Homestay capacity subdocument (`capacitySchema`): `guests` and
`beds` have `min: 1`; `bedrooms` and `bathrooms` have `min: 0`. -/
structure HomestayCapacity where
  guests : Int
  bedrooms : Int
  beds : Int
  bathrooms : Int
  deriving DecidableEq, Repr

/-- Stored coordinates pair (`coordinatesSchema`): both components
required, no range constraint. -/
structure Coordinates where
  lat : Int
  lng : Int
  deriving DecidableEq, Repr

/-- Stored Homestay location subdocument (`locationSchema` in
Homestay.model.ts); `coordinates` is optional. -/
structure HomestayLocation where
  address : String
  district : String
  state : String
  coordinates : Option Coordinates
  deriving DecidableEq, Repr

/-- Stored Homestay record (`IHomestay` plus the `timestamps: true` fields). -/
structure Homestay where
  title : String
  description : String
  propertyType : PropertyType
  location : HomestayLocation
  pricing : HomestayPricing
  capacity : HomestayCapacity
  amenities : List String
  houseRules : Option (List String)
  images : List String
  status : HomestayStatus
  createdAt : Nat
  updatedAt : Nat
  deriving DecidableEq, Repr

/-- Raw coordinates payload. -/
structure CoordinatesInput where
  lat : Option Int := none
  lng : Option Int := none
  deriving DecidableEq, Repr

/-- Raw Homestay location payload. -/
structure HomestayLocationInput where
  address : Option String := none
  district : Option String := none
  state : Option String := none
  coordinates : Option CoordinatesInput := none
  deriving DecidableEq, Repr

/-- Raw Homestay pricing payload. -/
structure HomestayPricingInput where
  basePrice : Option Int := none
  cleaningFee : Option Int := none
  weekendPrice : Option Int := none
  deriving DecidableEq, Repr

/-- Raw Homestay capacity payload. -/
structure HomestayCapacityInput where
  guests : Option Int := none
  bedrooms : Option Int := none
  beds : Option Int := none
  bathrooms : Option Int := none
  deriving DecidableEq, Repr

/-- Creation payload (`CreateHomestayInput = Omit<IHomestay, status |
timestamps>`): it has no status field at all; enum fields arrive as raw
strings. -/
structure CreateHomestayInput where
  title : Option String := none
  description : Option String := none
  propertyType : Option String := none
  location : Option HomestayLocationInput := none
  pricing : Option HomestayPricingInput := none
  capacity : Option HomestayCapacityInput := none
  amenities : Option (List String) := none
  houseRules : Option (List String) := none
  images : Option (List String) := none
  deriving DecidableEq, Repr

/-- Partial-update payload (`UpdateHomestayInput = Partial<Omit<IHomestay,
timestamps>>`): every field optional, including `status`. -/
structure UpdateHomestayInput where
  title : Option String := none
  description : Option String := none
  propertyType : Option String := none
  location : Option HomestayLocationInput := none
  pricing : Option HomestayPricingInput := none
  capacity : Option HomestayCapacityInput := none
  amenities : Option (List String) := none
  houseRules : Option (List String) := none
  images : Option (List String) := none
  status : Option String := none
  deriving DecidableEq, Repr

/-- Parse a supplied `propertyType` string against the declared enum. -/
def parsePropertyTypeValue (s : String) : Except ValidationError PropertyType :=
  if s = "entire" then .ok .entire
  else if s = "private" then .ok .«private»
  else if s = "shared" then .ok .shared
  else .error (.invalidEnumValue "propertyType")

/-- `propertyType` on create: `default: 'entire'` when absent (the
`required: true` on this path can never fire because the default is
applied first). -/
def parsePropertyType (v : Option String) : Except ValidationError PropertyType :=
  match v with
  | none => .ok .entire
  | some s => parsePropertyTypeValue s

/-- Parse a supplied `status` string against the declared enum. -/
def parseHomestayStatusValue (s : String) : Except ValidationError HomestayStatus :=
  if s = "active" then .ok .active
  else if s = "inactive" then .ok .inactive
  else if s = "pending" then .ok .pending
  else .error (.invalidEnumValue "status")

/-- Validate the optional coordinates pair: absent is fine; when supplied,
`lat` and `lng` are required but carry no range constraint. -/
def validateCoordinates (v : Option CoordinatesInput) :
    Except ValidationError (Option Coordinates) := do
  match v with
  | none => return none
  | some c =>
    let lat ← requiredNumber "location.coordinates.lat" c.lat
    let lng ← requiredNumber "location.coordinates.lng" c.lng
    return some { lat := lat, lng := lng }

/-- Validate the Homestay `location` subdocument (`required: true`;
`state` defaults to `'Jharkhand'`). -/
def validateHomestayLocation (v : Option HomestayLocationInput) :
    Except ValidationError HomestayLocation := do
  match v with
  | none => .error (.missingRequiredField "location")
  | some l =>
    let address ← requiredString "location.address" l.address
    let district ← requiredString "location.district" l.district
    let state ← defaultedString "Jharkhand" "location.state" l.state
    let coordinates ← validateCoordinates l.coordinates
    return { address := address, district := district, state := state,
             coordinates := coordinates }

/-- Validate the Homestay `pricing` subdocument: `basePrice` required with
`min: 100`; `cleaningFee`/`weekendPrice` optional, no constraint. -/
def validateHomestayPricing (v : Option HomestayPricingInput) :
    Except ValidationError HomestayPricing := do
  match v with
  | none => .error (.missingRequiredField "pricing")
  | some p =>
    let basePrice ← requiredNumberMin "pricing.basePrice" 100 p.basePrice
    return { basePrice := basePrice, cleaningFee := p.cleaningFee,
             weekendPrice := p.weekendPrice }

/-- Validate the Homestay `capacity` subdocument: `guests` and `beds`
with `min: 1`, `bedrooms` and `bathrooms` with `min: 0`. -/
def validateHomestayCapacity (v : Option HomestayCapacityInput) :
    Except ValidationError HomestayCapacity := do
  match v with
  | none => .error (.missingRequiredField "capacity")
  | some c =>
    let guests ← requiredNumberMin "capacity.guests" 1 c.guests
    let bedrooms ← requiredNumberMin "capacity.bedrooms" 0 c.bedrooms
    let beds ← requiredNumberMin "capacity.beds" 1 c.beds
    let bathrooms ← requiredNumberMin "capacity.bathrooms" 0 c.bathrooms
    return { guests := guests, bedrooms := bedrooms, beds := beds,
             bathrooms := bathrooms }

/-- Create a Homestay: validate every path of `homestaySchema` in
declaration order.  The creation input has no status field, so `status`
always takes its declared default `'active'`; `amenities` and `images`
default to `[]`; both timestamps are set to the current time `now`. -/
def createHomestay (i : CreateHomestayInput) (now : Nat) :
    Except ValidationError Homestay := do
  let title ← requiredTrimmedString "title" (some 200) i.title
  let description ← requiredTrimmedString "description" none i.description
  let propertyType ← parsePropertyType i.propertyType
  let location ← validateHomestayLocation i.location
  let pricing ← validateHomestayPricing i.pricing
  let capacity ← validateHomestayCapacity i.capacity
  let amenities := match i.amenities with
    | none => []
    | some l => l
  let images := match i.images with
    | none => []
    | some l => l
  return { title := title, description := description,
           propertyType := propertyType, location := location,
           pricing := pricing, capacity := capacity, amenities := amenities,
           houseRules := i.houseRules, images := images,
           status := .active, createdAt := now, updatedAt := now }

/-- Apply a partial update to a stored Homestay: each supplied field is
validated by the same schema rule and replaces the old value, absent
fields are unchanged, `createdAt` is kept and `updatedAt` refreshed.
`status` may be set to any declared enum value; no transition rule is
enforced. -/
def applyHomestayUpdate (h : Homestay) (u : UpdateHomestayInput) (now : Nat) :
    Except ValidationError Homestay := do
  let title ← updateWith h.title
    (fun s => requiredTrimmedString "title" (some 200) (some s)) u.title
  let description ← updateWith h.description
    (fun s => requiredTrimmedString "description" none (some s)) u.description
  let propertyType ← updateWith h.propertyType
    parsePropertyTypeValue u.propertyType
  let location ← updateWith h.location
    (fun l => validateHomestayLocation (some l)) u.location
  let pricing ← updateWith h.pricing
    (fun p => validateHomestayPricing (some p)) u.pricing
  let capacity ← updateWith h.capacity
    (fun c => validateHomestayCapacity (some c)) u.capacity
  let amenities := match u.amenities with
    | none => h.amenities
    | some l => l
  let houseRules := match u.houseRules with
    | none => h.houseRules
    | some l => some l
  let images := match u.images with
    | none => h.images
    | some l => l
  let status ← updateWith h.status
    parseHomestayStatusValue u.status
  return { title := title, description := description,
           propertyType := propertyType, location := location,
           pricing := pricing, capacity := capacity, amenities := amenities,
           houseRules := houseRules, images := images, status := status,
           createdAt := h.createdAt, updatedAt := now }

/-- Kind of a secondary-index key: `1` (ascending) or `'text'`. -/
inductive IndexKind
  | ascending
  | text
  deriving DecidableEq, Repr

/-- The index declarations of `guideSchema`, in source order
(Guide.model.ts lines 153-156): each entry is one `schema.index(...)`
call, given as its list of `(path, kind)` keys. -/
def guideIndexes : List (List (String × IndexKind)) :=
  [ [("specializations", .ascending)],
    [("availability", .ascending)],
    [("location.district", .ascending)],
    [("name", .text), ("bio", .text)] ]

/-- The index declarations of `homestaySchema`, in source order
(Homestay.model.ts lines 193-196). -/
def homestayIndexes : List (List (String × IndexKind)) :=
  [ [("location.district", .ascending)],
    [("pricing.basePrice", .ascending)],
    [("status", .ascending)],
    [("title", .text), ("description", .text)] ]

/-- Modelled from the spec: the Guide indexes section 6 of the spec calls
for — on specializations, on availability, on location.district, and a
combined text index over name and bio. -/
def specGuideIndexes : List (List (String × IndexKind)) :=
  [ [("specializations", .ascending)],
    [("availability", .ascending)],
    [("location.district", .ascending)],
    [("name", .text), ("bio", .text)] ]

/-- Modelled from the spec: the Homestay indexes section 6 of the spec
calls for — on location.district, on pricing.basePrice, on status, and a
combined text index over title and description. -/
def specHomestayIndexes : List (List (String × IndexKind)) :=
  [ [("location.district", .ascending)],
    [("pricing.basePrice", .ascending)],
    [("status", .ascending)],
    [("title", .text), ("description", .text)] ]

/-! ### Inversion lemmas for the validation combinators -/

/-- Peeling one monadic bind of a successful `Except` computation. -/
theorem exceptBind_ok {ε α β : Type} {x : Except ε α} {f : α → Except ε β} {b : β}
    (h : x >>= f = .ok b) : ∃ a, x = .ok a ∧ f a = .ok b := by
  cases x with
  | error e => exact Except.noConfusion h
  | ok a => exact ⟨a, rfl, h⟩

/-- A successful `pure` determines its value. -/
theorem exceptPure_ok {ε β : Type} {a b : β} (h : (pure a : Except ε β) = .ok b) :
    a = b :=
  Except.ok.inj h

/-- Inversion for `requiredNumberMin`: success returns exactly the supplied
value and certifies the lower bound. -/
theorem requiredNumberMin_ok {fieldName : String} {lo n : Int} {v : Option Int}
    (h : requiredNumberMin fieldName lo v = .ok n) : v = some n ∧ lo ≤ n := by
  cases v with
  | none => simp [requiredNumberMin] at h
  | some m =>
    unfold requiredNumberMin at h
    by_cases hc : m < lo
    · simp [hc] at h
    · simp [hc] at h
      subst h
      exact ⟨rfl, le_of_not_lt hc⟩

/-- Inversion for `requiredNumber`: success returns the supplied value. -/
theorem requiredNumber_ok {fieldName : String} {n : Int} {v : Option Int}
    (h : requiredNumber fieldName v = .ok n) : v = some n := by
  cases v with
  | none => simp [requiredNumber] at h
  | some m =>
    simp [requiredNumber] at h
    subst h
    rfl

/-- Inversion for the non-empty-array validator: success passes the list
through and certifies it is non-empty. -/
theorem nonEmptyStringList_ok {fieldName : String} {v l : List String}
    (h : nonEmptyStringList fieldName v = .ok l) : l = v ∧ v ≠ [] := by
  unfold nonEmptyStringList at h
  by_cases hv : v.isEmpty
  · simp [hv] at h
  · simp [hv] at h
    refine ⟨h.symm, ?_⟩
    intro hnil
    subst hnil
    simp at hv

/-- A string outside the declared `availability` enum is rejected with
`InvalidEnumValue`. -/
theorem parseGuideAvailabilityValue_notMem {s : String}
    (h1 : s ≠ "available") (h2 : s ≠ "busy") (h3 : s ≠ "unavailable") :
    parseGuideAvailabilityValue s = .error (.invalidEnumValue "availability") := by
  simp [parseGuideAvailabilityValue, h1, h2, h3]

/-- A string outside the declared `propertyType` enum is rejected with
`InvalidEnumValue`. -/
theorem parsePropertyTypeValue_notMem {s : String}
    (h1 : s ≠ "entire") (h2 : s ≠ "private") (h3 : s ≠ "shared") :
    parsePropertyTypeValue s = .error (.invalidEnumValue "propertyType") := by
  simp [parsePropertyTypeValue, h1, h2, h3]

/-- A string outside the declared `status` enum is rejected with
`InvalidEnumValue`. -/
theorem parseHomestayStatusValue_notMem {s : String}
    (h1 : s ≠ "active") (h2 : s ≠ "inactive") (h3 : s ≠ "pending") :
    parseHomestayStatusValue s = .error (.invalidEnumValue "status") := by
  simp [parseHomestayStatusValue, h1, h2, h3]

/-- Inversion for the Guide pricing validator: success means the payload
was present, `halfDay`/`fullDay` were supplied and pass `min: 0`, and the
unconstrained `multiDay`/`workshop` are passed through as supplied. -/
theorem validateGuidePricing_ok {v : Option GuidePricingInput} {pr : GuidePricing}
    (h : validateGuidePricing v = .ok pr) :
    ∃ p, v = some p ∧ p.halfDay = some pr.halfDay ∧ p.fullDay = some pr.fullDay ∧
      0 ≤ pr.halfDay ∧ 0 ≤ pr.fullDay ∧
      pr.multiDay = p.multiDay ∧ pr.workshop = p.workshop := by
  cases v with
  | none => simp [validateGuidePricing] at h
  | some p =>
    unfold validateGuidePricing at h
    obtain ⟨hd, h1, h⟩ := exceptBind_ok h
    obtain ⟨fd, h2, h⟩ := exceptBind_ok h
    have hrec := exceptPure_ok h
    subst hrec
    obtain ⟨hv1, hb1⟩ := requiredNumberMin_ok h1
    obtain ⟨hv2, hb2⟩ := requiredNumberMin_ok h2
    exact ⟨p, rfl, hv1, hv2, hb1, hb2, rfl, rfl⟩

/-- Inversion for the Homestay pricing validator: success means
`basePrice` was supplied and passes `min: 100`, while the unconstrained
`cleaningFee`/`weekendPrice` are passed through as supplied. -/
theorem validateHomestayPricing_ok {v : Option HomestayPricingInput} {pr : HomestayPricing}
    (h : validateHomestayPricing v = .ok pr) :
    ∃ p, v = some p ∧ p.basePrice = some pr.basePrice ∧ 100 ≤ pr.basePrice ∧
      pr.cleaningFee = p.cleaningFee ∧ pr.weekendPrice = p.weekendPrice := by
  cases v with
  | none => simp [validateHomestayPricing] at h
  | some p =>
    unfold validateHomestayPricing at h
    obtain ⟨bp, h1, h⟩ := exceptBind_ok h
    have hrec := exceptPure_ok h
    subst hrec
    obtain ⟨hv1, hb1⟩ := requiredNumberMin_ok h1
    exact ⟨p, rfl, hv1, hb1, rfl, rfl⟩

/-- Inversion for the Homestay capacity validator: success certifies
`guests ≥ 1`, `beds ≥ 1`, `bedrooms ≥ 0` and `bathrooms ≥ 0`. -/
theorem validateHomestayCapacity_ok {v : Option HomestayCapacityInput} {c : HomestayCapacity}
    (h : validateHomestayCapacity v = .ok c) :
    1 ≤ c.guests ∧ 0 ≤ c.bedrooms ∧ 1 ≤ c.beds ∧ 0 ≤ c.bathrooms := by
  cases v with
  | none => simp [validateHomestayCapacity] at h
  | some ci =>
    unfold validateHomestayCapacity at h
    obtain ⟨g, h1, h⟩ := exceptBind_ok h
    obtain ⟨br, h2, h⟩ := exceptBind_ok h
    obtain ⟨bd, h3, h⟩ := exceptBind_ok h
    obtain ⟨bt, h4, h⟩ := exceptBind_ok h
    have hrec := exceptPure_ok h
    subst hrec
    exact ⟨(requiredNumberMin_ok h1).2, (requiredNumberMin_ok h2).2,
           (requiredNumberMin_ok h3).2, (requiredNumberMin_ok h4).2⟩

/-- Inversion for the Guide location validator: when a supplied location
omits `state`, the stored state is the default `'Jharkhand'`. -/
theorem validateGuideLocation_ok_state {l : GuideLocationInput} {loc : GuideLocation}
    (h : validateGuideLocation (some l) = .ok loc) (hs : l.state = none) :
    loc.state = "Jharkhand" := by
  unfold validateGuideLocation at h
  obtain ⟨d, h1, h⟩ := exceptBind_ok h
  obtain ⟨st, h2, h⟩ := exceptBind_ok h
  have hrec := exceptPure_ok h
  subst hrec
  rw [hs] at h2
  exact (Except.ok.inj h2).symm

/-- Inversion for the Homestay location validator: when a supplied
location omits `state`, the stored state is the default `'Jharkhand'`. -/
theorem validateHomestayLocation_ok_state {l : HomestayLocationInput} {loc : HomestayLocation}
    (h : validateHomestayLocation (some l) = .ok loc) (hs : l.state = none) :
    loc.state = "Jharkhand" := by
  unfold validateHomestayLocation at h
  obtain ⟨a, h1, h⟩ := exceptBind_ok h
  obtain ⟨d, h2, h⟩ := exceptBind_ok h
  obtain ⟨st, h3, h⟩ := exceptBind_ok h
  obtain ⟨co, h4, h⟩ := exceptBind_ok h
  have hrec := exceptPure_ok h
  subst hrec
  rw [hs] at h3
  exact (Except.ok.inj h3).symm

/-! ### Concrete payloads and their validated records -/

/-- An otherwise-valid Guide creation payload leaving every defaulted
field absent. -/
def sampleGuideInput : CreateGuideInput :=
  { name := some "Asha", bio := some "Knows the Netarhat forests well",
    specializations := ["trekking"], languages := ["Hindi"],
    experience := some "5 years",
    location := some { district := some "Ranchi" },
    pricing := some { halfDay := some 500, fullDay := some 900 } }

/-- The stored record produced by `sampleGuideInput` at time 7. -/
def sampleGuideRecord : Guide :=
  { name := "Asha", bio := "Knows the Netarhat forests well",
    specializations := ["trekking"], languages := ["Hindi"],
    experience := "5 years",
    location := { district := "Ranchi", state := "Jharkhand" },
    pricing := { halfDay := 500, fullDay := 900, multiDay := none, workshop := none },
    certifications := none, availability := .available,
    createdAt := 7, updatedAt := 7 }

/-- `sampleGuideInput` with a negative `multiDay` price supplied. -/
def negMultiDayGuideInput : CreateGuideInput :=
  { sampleGuideInput with
    pricing := some { halfDay := some 500, fullDay := some 900, multiDay := some (-5) } }

/-- The record the schema accepts for `negMultiDayGuideInput`: the
negative `multiDay` is stored untouched. -/
def negMultiDayGuideRecord : Guide :=
  { sampleGuideRecord with
    pricing := { halfDay := 500, fullDay := 900, multiDay := some (-5), workshop := none } }

/-- `sampleGuideInput` with an empty `specializations` array. -/
def emptySpecializationsGuideInput : CreateGuideInput :=
  { sampleGuideInput with specializations := [] }

/-- `sampleGuideInput` with an empty `languages` array. -/
def emptyLanguagesGuideInput : CreateGuideInput :=
  { sampleGuideInput with languages := [] }

/-- `sampleGuideInput` with an `availability` string outside the enum. -/
def badAvailabilityGuideInput : CreateGuideInput :=
  { sampleGuideInput with availability := some "sometimes" }

/-- A partial Guide update supplying only a new `bio`. -/
def guideBioUpdate : UpdateGuideInput :=
  { bio := some "Now also guides Betla safaris" }

/-- The record produced by applying `guideBioUpdate` to
`sampleGuideRecord` at time 9. -/
def updatedGuideRecord : Guide :=
  { sampleGuideRecord with bio := "Now also guides Betla safaris", updatedAt := 9 }

/-- An otherwise-valid Homestay creation payload, parametrised by the
supplied `basePrice` and `guests` so the validation boundaries can be
probed; every defaulted field is left absent. -/
def mkHomestayInput (price guests : Int) : CreateHomestayInput :=
  { title := some "Hilltop Homestay", description := some "A calm stay",
    location := some { address := some "12 Lake Road", district := some "Ranchi" },
    pricing := some { basePrice := some price },
    capacity := some { guests := some guests, bedrooms := some 1,
                       beds := some 2, bathrooms := some 1 } }

/-- The stored record produced by `mkHomestayInput price guests` at time 0
(when it validates). -/
def mkHomestayRecord (price guests : Int) : Homestay :=
  { title := "Hilltop Homestay", description := "A calm stay",
    propertyType := .entire,
    location := { address := "12 Lake Road", district := "Ranchi",
                  state := "Jharkhand", coordinates := none },
    pricing := { basePrice := price, cleaningFee := none, weekendPrice := none },
    capacity := { guests := guests, bedrooms := 1, beds := 2, bathrooms := 1 },
    amenities := [], houseRules := none, images := [],
    status := .active, createdAt := 0, updatedAt := 0 }

/-- A stored Homestay with a chosen `status`, used to probe status
transitions. -/
def baseHomestay (s : HomestayStatus) : Homestay :=
  { mkHomestayRecord 150 2 with status := s }

/-- The wire string of each `status` enum value. -/
def statusName : HomestayStatus → String
  | .active => "active"
  | .inactive => "inactive"
  | .pending => "pending"

/-- Observe the stored status of an operation result, if it succeeded. -/
def statusOfResult : Except ValidationError Homestay → Option HomestayStatus
  | .ok r => some r.status
  | .error _ => none

/-- A Homestay creation payload supplying a negative `cleaningFee` and
out-of-range coordinates — none of which the schema constrains. -/
def extrasHomestayInput : CreateHomestayInput :=
  { mkHomestayInput 150 2 with
    pricing := some { basePrice := some 150, cleaningFee := some (-20),
                      weekendPrice := some 180 },
    location := some { address := some "12 Lake Road", district := some "Ranchi",
                       coordinates := some { lat := some 999, lng := some (-500) } } }

/-- The record the schema accepts for `extrasHomestayInput` at time 3:
the unconstrained values are stored exactly as supplied. -/
def extrasHomestayRecord : Homestay :=
  { mkHomestayRecord 150 2 with
    pricing := { basePrice := 150, cleaningFee := some (-20), weekendPrice := some 180 },
    location := { address := "12 Lake Road", district := "Ranchi",
                  state := "Jharkhand", coordinates := some { lat := 999, lng := -500 } },
    createdAt := 3, updatedAt := 3 }


/-! ### Master inversion lemmas for the four operations -/

/-- Inversion for Guide creation: success means every schema path
validated, the pass-through fields are as supplied, and both timestamps
equal the creation time. -/
theorem createGuide_ok_inv {i : CreateGuideInput} {now : Nat} {g : Guide}
    (h : createGuide i now = .ok g) :
    requiredTrimmedString "name" (some 100) i.name = .ok g.name ∧
    requiredTrimmedString "bio" none i.bio = .ok g.bio ∧
    nonEmptyStringList "specializations" i.specializations = .ok g.specializations ∧
    nonEmptyStringList "languages" i.languages = .ok g.languages ∧
    requiredString "experience" i.experience = .ok g.experience ∧
    validateGuideLocation i.location = .ok g.location ∧
    validateGuidePricing i.pricing = .ok g.pricing ∧
    parseGuideAvailability i.availability = .ok g.availability ∧
    g.certifications = i.certifications ∧
    g.createdAt = now ∧ g.updatedAt = now := by
  unfold createGuide at h
  obtain ⟨nm, h1, h⟩ := exceptBind_ok h
  obtain ⟨bi, h2, h⟩ := exceptBind_ok h
  obtain ⟨sp, h3, h⟩ := exceptBind_ok h
  obtain ⟨la, h4, h⟩ := exceptBind_ok h
  obtain ⟨ex, h5, h⟩ := exceptBind_ok h
  obtain ⟨lo, h6, h⟩ := exceptBind_ok h
  obtain ⟨pr, h7, h⟩ := exceptBind_ok h
  obtain ⟨av, h8, h⟩ := exceptBind_ok h
  have hrec := exceptPure_ok h
  subst hrec
  exact ⟨h1, h2, h3, h4, h5, h6, h7, h8, rfl, rfl, rfl⟩

/-- Inversion for Guide update: success keeps `createdAt`, refreshes
`updatedAt` to the update time, leaves every absent field unchanged and
re-validates every supplied field with its schema rule. -/
theorem applyGuideUpdate_ok_inv {g : Guide} {u : UpdateGuideInput} {now : Nat} {g' : Guide}
    (h : applyGuideUpdate g u now = .ok g') :
    g'.createdAt = g.createdAt ∧ g'.updatedAt = now ∧
    (u.name = none → g'.name = g.name) ∧
    (∀ s, u.name = some s →
      requiredTrimmedString "name" (some 100) (some s) = .ok g'.name) ∧
    (u.bio = none → g'.bio = g.bio) ∧
    (∀ s, u.bio = some s →
      requiredTrimmedString "bio" none (some s) = .ok g'.bio) ∧
    (u.specializations = none → g'.specializations = g.specializations) ∧
    (∀ l, u.specializations = some l →
      nonEmptyStringList "specializations" l = .ok g'.specializations) ∧
    (u.languages = none → g'.languages = g.languages) ∧
    (∀ l, u.languages = some l →
      nonEmptyStringList "languages" l = .ok g'.languages) ∧
    (u.experience = none → g'.experience = g.experience) ∧
    (u.location = none → g'.location = g.location) ∧
    (∀ l, u.location = some l →
      validateGuideLocation (some l) = .ok g'.location) ∧
    (u.pricing = none → g'.pricing = g.pricing) ∧
    (∀ p, u.pricing = some p →
      validateGuidePricing (some p) = .ok g'.pricing) ∧
    (u.certifications = none → g'.certifications = g.certifications) ∧
    (u.availability = none → g'.availability = g.availability) ∧
    (∀ s, u.availability = some s →
      parseGuideAvailabilityValue s = .ok g'.availability) := by
  unfold applyGuideUpdate at h
  obtain ⟨nm, h1, h⟩ := exceptBind_ok h
  obtain ⟨bi, h2, h⟩ := exceptBind_ok h
  obtain ⟨sp, h3, h⟩ := exceptBind_ok h
  obtain ⟨la, h4, h⟩ := exceptBind_ok h
  obtain ⟨ex, h5, h⟩ := exceptBind_ok h
  obtain ⟨lo, h6, h⟩ := exceptBind_ok h
  obtain ⟨pr, h7, h⟩ := exceptBind_ok h
  obtain ⟨av, h8, h⟩ := exceptBind_ok h
  have hrec := exceptPure_ok h
  subst hrec
  refine ⟨rfl, rfl, ?_, ?_, ?_, ?_, ?_, ?_, ?_, ?_, ?_, ?_, ?_, ?_, ?_, ?_, ?_, ?_⟩
  · intro hn; rw [hn] at h1; exact (Except.ok.inj h1).symm
  · intro s hs; rw [hs] at h1; exact h1
  · intro hn; rw [hn] at h2; exact (Except.ok.inj h2).symm
  · intro s hs; rw [hs] at h2; exact h2
  · intro hn; rw [hn] at h3; exact (Except.ok.inj h3).symm
  · intro l hl; rw [hl] at h3; exact h3
  · intro hn; rw [hn] at h4; exact (Except.ok.inj h4).symm
  · intro l hl; rw [hl] at h4; exact h4
  · intro hn; rw [hn] at h5; exact (Except.ok.inj h5).symm
  · intro hn; rw [hn] at h6; exact (Except.ok.inj h6).symm
  · intro l hl; rw [hl] at h6; exact h6
  · intro hn; rw [hn] at h7; exact (Except.ok.inj h7).symm
  · intro p hp; rw [hp] at h7; exact h7
  · intro hc; rw [hc]
  · intro hn; rw [hn] at h8; exact (Except.ok.inj h8).symm
  · intro s hs; rw [hs] at h8; exact h8

/-- Inversion for Homestay creation: success means every schema path
validated, `amenities`/`images` default to `[]` exactly when absent,
`status` is the default `'active'`, and both timestamps equal the
creation time. -/
theorem createHomestay_ok_inv {i : CreateHomestayInput} {now : Nat} {r : Homestay}
    (h : createHomestay i now = .ok r) :
    requiredTrimmedString "title" (some 200) i.title = .ok r.title ∧
    requiredTrimmedString "description" none i.description = .ok r.description ∧
    parsePropertyType i.propertyType = .ok r.propertyType ∧
    validateHomestayLocation i.location = .ok r.location ∧
    validateHomestayPricing i.pricing = .ok r.pricing ∧
    validateHomestayCapacity i.capacity = .ok r.capacity ∧
    (i.amenities = none → r.amenities = []) ∧
    (∀ l, i.amenities = some l → r.amenities = l) ∧
    r.houseRules = i.houseRules ∧
    (i.images = none → r.images = []) ∧
    (∀ l, i.images = some l → r.images = l) ∧
    r.status = .active ∧ r.createdAt = now ∧ r.updatedAt = now := by
  unfold createHomestay at h
  obtain ⟨ti, h1, h⟩ := exceptBind_ok h
  obtain ⟨de, h2, h⟩ := exceptBind_ok h
  obtain ⟨pt, h3, h⟩ := exceptBind_ok h
  obtain ⟨lo, h4, h⟩ := exceptBind_ok h
  obtain ⟨pr, h5, h⟩ := exceptBind_ok h
  obtain ⟨ca, h6, h⟩ := exceptBind_ok h
  have hrec := exceptPure_ok h
  subst hrec
  refine ⟨h1, h2, h3, h4, h5, h6, ?_, ?_, rfl, ?_, ?_, rfl, rfl, rfl⟩
  · intro hn; rw [hn]
  · intro l hl; rw [hl]
  · intro hn; rw [hn]
  · intro l hl; rw [hl]

/-- Inversion for Homestay update: success keeps `createdAt`, refreshes
`updatedAt`, leaves absent fields unchanged and re-validates supplied
fields; a supplied `status` string is parsed against the enum with no
transition constraint. -/
theorem applyHomestayUpdate_ok_inv {r : Homestay} {u : UpdateHomestayInput} {now : Nat}
    {r' : Homestay} (h : applyHomestayUpdate r u now = .ok r') :
    r'.createdAt = r.createdAt ∧ r'.updatedAt = now ∧
    (u.title = none → r'.title = r.title) ∧
    (∀ s, u.title = some s →
      requiredTrimmedString "title" (some 200) (some s) = .ok r'.title) ∧
    (u.description = none → r'.description = r.description) ∧
    (∀ s, u.description = some s →
      requiredTrimmedString "description" none (some s) = .ok r'.description) ∧
    (u.propertyType = none → r'.propertyType = r.propertyType) ∧
    (∀ s, u.propertyType = some s →
      parsePropertyTypeValue s = .ok r'.propertyType) ∧
    (u.location = none → r'.location = r.location) ∧
    (∀ l, u.location = some l →
      validateHomestayLocation (some l) = .ok r'.location) ∧
    (u.pricing = none → r'.pricing = r.pricing) ∧
    (∀ p, u.pricing = some p →
      validateHomestayPricing (some p) = .ok r'.pricing) ∧
    (u.capacity = none → r'.capacity = r.capacity) ∧
    (∀ c, u.capacity = some c →
      validateHomestayCapacity (some c) = .ok r'.capacity) ∧
    (u.amenities = none → r'.amenities = r.amenities) ∧
    (∀ l, u.amenities = some l → r'.amenities = l) ∧
    (u.houseRules = none → r'.houseRules = r.houseRules) ∧
    (u.images = none → r'.images = r.images) ∧
    (∀ l, u.images = some l → r'.images = l) ∧
    (u.status = none → r'.status = r.status) ∧
    (∀ s, u.status = some s →
      parseHomestayStatusValue s = .ok r'.status) := by
  unfold applyHomestayUpdate at h
  obtain ⟨ti, h1, h⟩ := exceptBind_ok h
  obtain ⟨de, h2, h⟩ := exceptBind_ok h
  obtain ⟨pt, h3, h⟩ := exceptBind_ok h
  obtain ⟨lo, h4, h⟩ := exceptBind_ok h
  obtain ⟨pr, h5, h⟩ := exceptBind_ok h
  obtain ⟨ca, h6, h⟩ := exceptBind_ok h
  obtain ⟨st, h7, h⟩ := exceptBind_ok h
  have hrec := exceptPure_ok h
  subst hrec
  refine ⟨rfl, rfl, ?_, ?_, ?_, ?_, ?_, ?_, ?_, ?_, ?_, ?_, ?_, ?_, ?_, ?_, ?_, ?_, ?_, ?_, ?_⟩
  · intro hn; rw [hn] at h1; exact (Except.ok.inj h1).symm
  · intro s hs; rw [hs] at h1; exact h1
  · intro hn; rw [hn] at h2; exact (Except.ok.inj h2).symm
  · intro s hs; rw [hs] at h2; exact h2
  · intro hn; rw [hn] at h3; exact (Except.ok.inj h3).symm
  · intro s hs; rw [hs] at h3; exact h3
  · intro hn; rw [hn] at h4; exact (Except.ok.inj h4).symm
  · intro l hl; rw [hl] at h4; exact h4
  · intro hn; rw [hn] at h5; exact (Except.ok.inj h5).symm
  · intro p hp; rw [hp] at h5; exact h5
  · intro hn; rw [hn] at h6; exact (Except.ok.inj h6).symm
  · intro c hc; rw [hc] at h6; exact h6
  · intro hn; rw [hn]
  · intro l hl; rw [hl]
  · intro hn; rw [hn]
  · intro hn; rw [hn]
  · intro l hl; rw [hl]
  · intro hn; rw [hn] at h7; exact (Except.ok.inj h7).symm
  · intro s hs; rw [hs] at h7; exact h7

/-! ### Claims -/

/-- C1 counterexample: the claim says a negative value in ANY pricing
field (halfDay, fullDay, multiDay or workshop) is rejected, but the
schema declares `min: 0` only on `halfDay` and `fullDay`; a creation
payload with `multiDay = -5` validates and the negative price is
persisted unchanged. -/
theorem c1_negative_multiDay_accepted :
    createGuide negMultiDayGuideInput 7 = .ok negMultiDayGuideRecord ∧
    negMultiDayGuideRecord.pricing.multiDay = some (-5) :=
  ⟨rfl, rfl⟩

/-- C1 (amended): for every Guide creation or update input, if the
supplied `halfDay` or `fullDay` is negative the operation is rejected
with a validation error and nothing is persisted; the optional
`multiDay` and `workshop` prices are not range-checked and are stored
exactly as supplied. -/
theorem c1_guide_price_validation :
    (∀ (i : CreateGuideInput) (now : Nat) (g : Guide),
        createGuide i now = .ok g →
        0 ≤ g.pricing.halfDay ∧ 0 ≤ g.pricing.fullDay) ∧
    (∀ (i : CreateGuideInput) (p : GuidePricingInput) (n : Int) (now : Nat) (g : Guide),
        i.pricing = some p → (p.halfDay = some n ∨ p.fullDay = some n) → n < 0 →
        createGuide i now ≠ .ok g) ∧
    (∀ (g : Guide) (u : UpdateGuideInput) (p : GuidePricingInput) (n : Int) (now : Nat)
        (g' : Guide),
        u.pricing = some p → (p.halfDay = some n ∨ p.fullDay = some n) → n < 0 →
        applyGuideUpdate g u now ≠ .ok g') ∧
    (∀ (i : CreateGuideInput) (p : GuidePricingInput) (now : Nat) (g : Guide),
        i.pricing = some p → createGuide i now = .ok g →
        g.pricing.multiDay = p.multiDay ∧ g.pricing.workshop = p.workshop) := by
  refine ⟨?_, ?_, ?_, ?_⟩
  · intro i now g h
    obtain ⟨p, _, _, _, hb1, hb2, _, _⟩ :=
      validateGuidePricing_ok (createGuide_ok_inv h).2.2.2.2.2.2.1
    exact ⟨hb1, hb2⟩
  · intro i p n now g hp hd hn h
    have hpr := (createGuide_ok_inv h).2.2.2.2.2.2.1
    rw [hp] at hpr
    obtain ⟨p2, hp2, hhd, hfd, hb1, hb2, _, _⟩ := validateGuidePricing_ok hpr
    have hpe : p = p2 := Option.some.inj hp2
    cases hd with
    | inl hh =>
      rw [hpe] at hh
      rw [hh] at hhd
      have hne : n = g.pricing.halfDay := Option.some.inj hhd
      omega
    | inr hf =>
      rw [hpe] at hf
      rw [hf] at hfd
      have hne : n = g.pricing.fullDay := Option.some.inj hfd
      omega
  · intro g u p n now g' hp hd hn h
    obtain ⟨_, _, _, _, _, _, _, _, _, _, _, _, _, _, hprs, _, _, _⟩ :=
      applyGuideUpdate_ok_inv h
    obtain ⟨p2, hp2, hhd, hfd, hb1, hb2, _, _⟩ := validateGuidePricing_ok (hprs p hp)
    have hpe : p = p2 := Option.some.inj hp2
    cases hd with
    | inl hh =>
      rw [hpe] at hh
      rw [hh] at hhd
      have hne : n = g'.pricing.halfDay := Option.some.inj hhd
      omega
    | inr hf =>
      rw [hpe] at hf
      rw [hf] at hfd
      have hne : n = g'.pricing.fullDay := Option.some.inj hfd
      omega
  · intro i p now g hp h
    have hpr := (createGuide_ok_inv h).2.2.2.2.2.2.1
    rw [hp] at hpr
    obtain ⟨p2, hp2, _, _, _, _, hm, hw⟩ := validateGuidePricing_ok hpr
    have hpe : p = p2 := Option.some.inj hp2
    constructor
    · rw [hm, hpe]
    · rw [hw, hpe]

/-- C1 witness: the amended theorem applied to a concrete accepted
creation payload. -/
theorem c1_guide_price_validation_witness :
    0 ≤ sampleGuideRecord.pricing.halfDay ∧ 0 ≤ sampleGuideRecord.pricing.fullDay :=
  c1_guide_price_validation.1 sampleGuideInput 7 sampleGuideRecord rfl

/-- C2: Homestay creation validates `pricing.basePrice` against the
exact lower bound 100 — every accepted record satisfies it, an
otherwise-valid payload with basePrice 99 is rejected with
OutOfRangeValue, and the same payload with basePrice 100 is accepted. -/
theorem c2_homestay_basePrice_boundary :
    (∀ (i : CreateHomestayInput) (now : Nat) (r : Homestay),
        createHomestay i now = .ok r → 100 ≤ r.pricing.basePrice) ∧
    createHomestay (mkHomestayInput 99 2) 0 =
      .error (.outOfRangeValue "pricing.basePrice") ∧
    createHomestay (mkHomestayInput 100 2) 0 = .ok (mkHomestayRecord 100 2) := by
  refine ⟨?_, rfl, rfl⟩
  intro i now r h
  obtain ⟨p, _, _, hb, _, _⟩ :=
    validateHomestayPricing_ok (createHomestay_ok_inv h).2.2.2.2.1
  exact hb

/-- C2 witness: the boundary theorem applied to the accepted payload
with basePrice 100. -/
theorem c2_homestay_basePrice_boundary_witness :
    100 ≤ (mkHomestayRecord 100 2).pricing.basePrice :=
  c2_homestay_basePrice_boundary.1 (mkHomestayInput 100 2) 0 (mkHomestayRecord 100 2) rfl

/-- C3: every stored Guide has non-empty specializations and languages —
creation rejects an empty (or absent, which the ODM treats as empty)
collection with EmptyRequiredCollection, and no update can empty either
collection. -/
theorem c3_guide_collections_invariant :
    (∀ (i : CreateGuideInput) (now : Nat) (g : Guide),
        createGuide i now = .ok g →
        g.specializations ≠ [] ∧ g.languages ≠ []) ∧
    (∀ (g : Guide) (u : UpdateGuideInput) (now : Nat) (g' : Guide),
        applyGuideUpdate g u now = .ok g' →
        g.specializations ≠ [] → g.languages ≠ [] →
        g'.specializations ≠ [] ∧ g'.languages ≠ []) ∧
    createGuide emptySpecializationsGuideInput 0 =
      .error (.emptyRequiredCollection "specializations") ∧
    createGuide emptyLanguagesGuideInput 0 =
      .error (.emptyRequiredCollection "languages") := by
  refine ⟨?_, ?_, rfl, rfl⟩
  · intro i now g h
    obtain ⟨_, _, hsp, hla, _⟩ := createGuide_ok_inv h
    obtain ⟨he1, hne1⟩ := nonEmptyStringList_ok hsp
    obtain ⟨he2, hne2⟩ := nonEmptyStringList_ok hla
    constructor
    · rw [he1]; exact hne1
    · rw [he2]; exact hne2
  · intro g u now g' h hs hl
    obtain ⟨_, _, _, _, _, _, hspn, hsps, hlan, hlas, _, _, _, _, _, _, _, _⟩ :=
      applyGuideUpdate_ok_inv h
    constructor
    · cases hu : u.specializations with
      | none => rw [hspn hu]; exact hs
      | some l =>
        obtain ⟨he, hne⟩ := nonEmptyStringList_ok (hsps l hu)
        rw [he]; exact hne
    · cases hu : u.languages with
      | none => rw [hlan hu]; exact hl
      | some l =>
        obtain ⟨he, hne⟩ := nonEmptyStringList_ok (hlas l hu)
        rw [he]; exact hne

/-- C3 witness: the invariant applied to a concrete accepted creation. -/
theorem c3_guide_collections_invariant_witness :
    sampleGuideRecord.specializations ≠ [] ∧ sampleGuideRecord.languages ≠ [] :=
  c3_guide_collections_invariant.1 sampleGuideInput 7 sampleGuideRecord rfl

/-- C4: on every accepted creation, each defaulted field absent from the
input takes its documented default — Guide availability `available` and
location.state `Jharkhand`; Homestay propertyType `entire`, status
`active`, location.state `Jharkhand`, and amenities and images `[]`. -/
theorem c4_creation_defaults :
    (∀ (i : CreateGuideInput) (now : Nat) (g : Guide),
        createGuide i now = .ok g →
        (i.availability = none → g.availability = .available) ∧
        (∀ l, i.location = some l → l.state = none →
          g.location.state = "Jharkhand")) ∧
    (∀ (i : CreateHomestayInput) (now : Nat) (r : Homestay),
        createHomestay i now = .ok r →
        (i.propertyType = none → r.propertyType = .entire) ∧
        r.status = .active ∧
        (∀ l, i.location = some l → l.state = none →
          r.location.state = "Jharkhand") ∧
        (i.amenities = none → r.amenities = []) ∧
        (i.images = none → r.images = [])) := by
  constructor
  · intro i now g h
    obtain ⟨_, _, _, _, _, hloc, _, hav, _, _, _⟩ := createGuide_ok_inv h
    constructor
    · intro hn
      rw [hn] at hav
      exact (Except.ok.inj hav).symm
    · intro l hl hsn
      rw [hl] at hloc
      exact validateGuideLocation_ok_state hloc hsn
  · intro i now r h
    obtain ⟨_, _, hpt, hloc, _, _, ham, _, _, him, _, hst, _, _⟩ := createHomestay_ok_inv h
    refine ⟨?_, hst, ?_, ham, him⟩
    · intro hn
      rw [hn] at hpt
      exact (Except.ok.inj hpt).symm
    · intro l hl hsn
      rw [hl] at hloc
      exact validateHomestayLocation_ok_state hloc hsn

/-- C4 witness: the defaults theorem applied to concrete creations that
leave the defaulted fields absent. -/
theorem c4_creation_defaults_witness :
    sampleGuideRecord.availability = .available ∧
    (mkHomestayRecord 100 2).amenities = [] :=
  ⟨(c4_creation_defaults.1 sampleGuideInput 7 sampleGuideRecord rfl).1 rfl,
   (c4_creation_defaults.2 (mkHomestayInput 100 2) 0 (mkHomestayRecord 100 2) rfl).2.2.2.1 rfl⟩

/-- C5: Homestay capacity validation enforces guests ≥ 1, beds ≥ 1,
bedrooms ≥ 0 and bathrooms ≥ 0 on create and on any update that supplies
capacity; a creation payload with guests 0 is rejected and the same
payload with guests 1 is accepted. -/
theorem c5_homestay_capacity_validation :
    (∀ (i : CreateHomestayInput) (now : Nat) (r : Homestay),
        createHomestay i now = .ok r →
        1 ≤ r.capacity.guests ∧ 0 ≤ r.capacity.bedrooms ∧
        1 ≤ r.capacity.beds ∧ 0 ≤ r.capacity.bathrooms) ∧
    (∀ (r : Homestay) (u : UpdateHomestayInput) (c : HomestayCapacityInput) (now : Nat)
        (r' : Homestay),
        u.capacity = some c → applyHomestayUpdate r u now = .ok r' →
        1 ≤ r'.capacity.guests ∧ 0 ≤ r'.capacity.bedrooms ∧
        1 ≤ r'.capacity.beds ∧ 0 ≤ r'.capacity.bathrooms) ∧
    createHomestay (mkHomestayInput 150 0) 0 =
      .error (.outOfRangeValue "capacity.guests") ∧
    createHomestay (mkHomestayInput 150 1) 0 = .ok (mkHomestayRecord 150 1) := by
  refine ⟨?_, ?_, rfl, rfl⟩
  · intro i now r h
    exact validateHomestayCapacity_ok (createHomestay_ok_inv h).2.2.2.2.2.1
  · intro r u c now r' hc h
    obtain ⟨_, _, _, _, _, _, _, _, _, _, _, _, _, hcap, _, _, _, _, _, _, _⟩ :=
      applyHomestayUpdate_ok_inv h
    exact validateHomestayCapacity_ok (hcap c hc)

/-- C5 witness: the capacity theorem applied to the accepted payload with
guests 1. -/
theorem c5_homestay_capacity_validation_witness :
    1 ≤ (mkHomestayRecord 150 1).capacity.guests ∧
    0 ≤ (mkHomestayRecord 150 1).capacity.bedrooms ∧
    1 ≤ (mkHomestayRecord 150 1).capacity.beds ∧
    0 ≤ (mkHomestayRecord 150 1).capacity.bathrooms :=
  c5_homestay_capacity_validation.1 (mkHomestayInput 150 1) 0 (mkHomestayRecord 150 1) rfl

/-- C6: the Homestay creation input has no status field, so every
accepted creation stores the default status `active`; and status
transitions are unconstrained — an update can set status directly from
any enum value to any other. -/
theorem c6_homestay_status_contract :
    (∀ (i : CreateHomestayInput) (now : Nat) (r : Homestay),
        createHomestay i now = .ok r → r.status = .active) ∧
    (∀ s1 s2 : HomestayStatus,
        statusOfResult (applyHomestayUpdate (baseHomestay s1)
          { status := some (statusName s2) } 9) = some s2) := by
  constructor
  · intro i now r h
    exact (createHomestay_ok_inv h).2.2.2.2.2.2.2.2.2.2.2.1
  · intro s1 s2
    cases s1 <;> cases s2 <;> rfl

/-- C6 witness: a concrete creation stores status `active`, and a
concrete update flips `active` directly to `pending`. -/
theorem c6_homestay_status_contract_witness :
    (mkHomestayRecord 100 2).status = .active ∧
    statusOfResult (applyHomestayUpdate (baseHomestay .active)
      { status := some (statusName .pending) } 9) = some .pending :=
  ⟨c6_homestay_status_contract.1 (mkHomestayInput 100 2) 0 (mkHomestayRecord 100 2) rfl,
   c6_homestay_status_contract.2 .active .pending⟩

/-- C7: no update changes `createdAt`; every successful update sets
`updatedAt` to the update time (hence to a later-or-equal timestamp when
the clock has not gone backwards); and every field not supplied in the
partial update input is unchanged. -/
theorem c7_update_timestamps_and_frame :
    (∀ (g : Guide) (u : UpdateGuideInput) (now : Nat) (g' : Guide),
        applyGuideUpdate g u now = .ok g' →
        g'.createdAt = g.createdAt ∧ g'.updatedAt = now ∧
        (g.updatedAt ≤ now → g.updatedAt ≤ g'.updatedAt) ∧
        (u.name = none → g'.name = g.name) ∧
        (u.bio = none → g'.bio = g.bio) ∧
        (u.specializations = none → g'.specializations = g.specializations) ∧
        (u.languages = none → g'.languages = g.languages) ∧
        (u.experience = none → g'.experience = g.experience) ∧
        (u.location = none → g'.location = g.location) ∧
        (u.pricing = none → g'.pricing = g.pricing) ∧
        (u.certifications = none → g'.certifications = g.certifications) ∧
        (u.availability = none → g'.availability = g.availability)) ∧
    (∀ (r : Homestay) (u : UpdateHomestayInput) (now : Nat) (r' : Homestay),
        applyHomestayUpdate r u now = .ok r' →
        r'.createdAt = r.createdAt ∧ r'.updatedAt = now ∧
        (r.updatedAt ≤ now → r.updatedAt ≤ r'.updatedAt) ∧
        (u.title = none → r'.title = r.title) ∧
        (u.description = none → r'.description = r.description) ∧
        (u.propertyType = none → r'.propertyType = r.propertyType) ∧
        (u.location = none → r'.location = r.location) ∧
        (u.pricing = none → r'.pricing = r.pricing) ∧
        (u.capacity = none → r'.capacity = r.capacity) ∧
        (u.amenities = none → r'.amenities = r.amenities) ∧
        (u.houseRules = none → r'.houseRules = r.houseRules) ∧
        (u.images = none → r'.images = r.images) ∧
        (u.status = none → r'.status = r.status)) := by
  constructor
  · intro g u now g' h
    obtain ⟨hc, hu, hn, _, hb, _, hsp, _, hla, _, hex, hlo, _, hpr, _, hce, hav, _⟩ :=
      applyGuideUpdate_ok_inv h
    refine ⟨hc, hu, ?_, hn, hb, hsp, hla, hex, hlo, hpr, hce, hav⟩
    intro hle
    rw [hu]
    exact hle
  · intro r u now r' h
    obtain ⟨hc, hu, htn, _, hdn, _, hpn, _, hln, _, hprn, _, hcn, _, han, _, hhr, himn, _,
            hstn, _⟩ := applyHomestayUpdate_ok_inv h
    refine ⟨hc, hu, ?_, htn, hdn, hpn, hln, hprn, hcn, han, hhr, himn, hstn⟩
    intro hle
    rw [hu]
    exact hle

/-- C7 witness: the frame theorem applied to a concrete bio-only update. -/
theorem c7_update_timestamps_and_frame_witness :
    updatedGuideRecord.createdAt = sampleGuideRecord.createdAt ∧
    updatedGuideRecord.updatedAt = 9 ∧
    updatedGuideRecord.name = sampleGuideRecord.name :=
  ⟨(c7_update_timestamps_and_frame.1 sampleGuideRecord guideBioUpdate 9
      updatedGuideRecord rfl).1,
   (c7_update_timestamps_and_frame.1 sampleGuideRecord guideBioUpdate 9
      updatedGuideRecord rfl).2.1,
   (c7_update_timestamps_and_frame.1 sampleGuideRecord guideBioUpdate 9
      updatedGuideRecord rfl).2.2.2.1 rfl⟩

/-- C8: the declared secondary indexes are exactly those the spec lists,
for both schemas, key by key. -/
theorem c8_declared_indexes :
    guideIndexes = specGuideIndexes ∧ homestayIndexes = specHomestayIndexes :=
  ⟨rfl, rfl⟩

/-- C9: a supplied enum string outside the declared set — Guide
availability, Homestay propertyType, Homestay status — is rejected at
validation (InvalidEnumValue) on create and update, and is never
stored. -/
theorem c9_enum_rejection :
    (∀ (i : CreateGuideInput) (s : String) (now : Nat) (g : Guide),
        i.availability = some s →
        s ≠ "available" → s ≠ "busy" → s ≠ "unavailable" →
        createGuide i now ≠ .ok g) ∧
    (∀ (g : Guide) (u : UpdateGuideInput) (s : String) (now : Nat) (g' : Guide),
        u.availability = some s →
        s ≠ "available" → s ≠ "busy" → s ≠ "unavailable" →
        applyGuideUpdate g u now ≠ .ok g') ∧
    (∀ (i : CreateHomestayInput) (s : String) (now : Nat) (r : Homestay),
        i.propertyType = some s →
        s ≠ "entire" → s ≠ "private" → s ≠ "shared" →
        createHomestay i now ≠ .ok r) ∧
    (∀ (r : Homestay) (u : UpdateHomestayInput) (s : String) (now : Nat) (r' : Homestay),
        u.propertyType = some s →
        s ≠ "entire" → s ≠ "private" → s ≠ "shared" →
        applyHomestayUpdate r u now ≠ .ok r') ∧
    (∀ (r : Homestay) (u : UpdateHomestayInput) (s : String) (now : Nat) (r' : Homestay),
        u.status = some s →
        s ≠ "active" → s ≠ "inactive" → s ≠ "pending" →
        applyHomestayUpdate r u now ≠ .ok r') ∧
    createGuide badAvailabilityGuideInput 0 = .error (.invalidEnumValue "availability") ∧
    createHomestay { mkHomestayInput 150 2 with propertyType := some "castle" } 0 =
      .error (.invalidEnumValue "propertyType") ∧
    applyHomestayUpdate (mkHomestayRecord 150 2) { status := some "archived" } 9 =
      .error (.invalidEnumValue "status") := by
  refine ⟨?_, ?_, ?_, ?_, ?_, rfl, rfl, rfl⟩
  · intro i s now g hs h1 h2 h3 h
    have hav := (createGuide_ok_inv h).2.2.2.2.2.2.2.1
    rw [hs] at hav
    have hval : parseGuideAvailabilityValue s = .ok g.availability := hav
    rw [parseGuideAvailabilityValue_notMem h1 h2 h3] at hval
    exact Except.noConfusion hval
  · intro g u s now g' hs h1 h2 h3 h
    obtain ⟨_, _, _, _, _, _, _, _, _, _, _, _, _, _, _, _, _, havs⟩ :=
      applyGuideUpdate_ok_inv h
    have hval := havs s hs
    rw [parseGuideAvailabilityValue_notMem h1 h2 h3] at hval
    exact Except.noConfusion hval
  · intro i s now r hs h1 h2 h3 h
    have hpt := (createHomestay_ok_inv h).2.2.1
    rw [hs] at hpt
    have hval : parsePropertyTypeValue s = .ok r.propertyType := hpt
    rw [parsePropertyTypeValue_notMem h1 h2 h3] at hval
    exact Except.noConfusion hval
  · intro r u s now r' hs h1 h2 h3 h
    obtain ⟨_, _, _, _, _, _, _, hpts, _, _, _, _, _, _, _, _, _, _, _, _, _⟩ :=
      applyHomestayUpdate_ok_inv h
    have hval := hpts s hs
    rw [parsePropertyTypeValue_notMem h1 h2 h3] at hval
    exact Except.noConfusion hval
  · intro r u s now r' hs h1 h2 h3 h
    obtain ⟨_, _, _, _, _, _, _, _, _, _, _, _, _, _, _, _, _, _, _, _, hsts⟩ :=
      applyHomestayUpdate_ok_inv h
    have hval := hsts s hs
    rw [parseHomestayStatusValue_notMem h1 h2 h3] at hval
    exact Except.noConfusion hval

/-- C9 witness: the rejection theorem applied to a concrete payload with
an availability string outside the enum. -/
theorem c9_enum_rejection_witness :
    createGuide badAvailabilityGuideInput 0 ≠ .ok sampleGuideRecord :=
  c9_enum_rejection.1 badAvailabilityGuideInput "sometimes" 0 sampleGuideRecord rfl
    (by decide) (by decide) (by decide)

/-- C10: the optional numeric fields cleaningFee, weekendPrice and the
coordinate components carry no range constraints — a creation payload
with a negative cleaningFee and out-of-range coordinates validates and
stores the values exactly as supplied. -/
theorem c10_unconstrained_optional_numbers :
    createHomestay extrasHomestayInput 3 = .ok extrasHomestayRecord ∧
    extrasHomestayRecord.pricing.cleaningFee = some (-20) ∧
    extrasHomestayRecord.pricing.weekendPrice = some 180 ∧
    extrasHomestayRecord.location.coordinates = some { lat := 999, lng := -500 } :=
  ⟨rfl, rfl, rfl, rfl⟩
